import Mathlib

/-!
# Verification of pi-home-server

A shallow embedding of the pi-home-server repository (src/config.py,
src/auth.py, src/door.py, src/main.py) together with proofs about the
behaviours described in its specification.

Modelling conventions:
* Python `datetime` timestamps are modelled as `Int` (seconds); only
  differences and comparisons of timestamps matter to the code.
* Python dictionaries keyed by strings are modelled as total functions
  `String → _` with the dictionary's "missing key" initialisation folded
  into the default value (an absent key of `rate_limit_data` behaves
  exactly like the empty list the code would install for it).
* The file system is a map from paths to file data (content and mode).
  The contents written by `json.dump` on a cookie list are modelled by the
  constructor `FileContent.jsonCookies`; contents on which `json.load`
  raises are modelled by `FileContent.malformed`.  That `json.load`
  recovers exactly what `json.dump` wrote is a property of the third-party
  `json` library, taken as part of the environment model.
* Effects of the third-party Playwright library (page navigation, waiting,
  locating and clicking a button) are oracle inputs: a `DoorEnv` record
  gives the outcome of each external step, and the embedded `open_door`
  folds those outcomes exactly as the Python control flow does.
* Python `str.strip`, `str.lower`, `str.isdigit` and `int()` are modelled
  over their ASCII behaviour (the inputs the program meets are phone
  numbers, commands and port numbers).
-/

namespace PiHome

/-! ## config.py -/

/-- `Config.rate_limit_max_requests = 10  # per hour` (src/config.py). -/
def rate_limit_max_requests : Nat := 10

/-- `Config.rate_limit_window_seconds = 3600  # 1 hour` (src/config.py). -/
def rate_limit_window_seconds : Int := 3600

/-- `Config.cookies_file = "cookies.json"` (src/config.py). -/
def cookies_file : String := "cookies.json"

/-- The process environment: `os.getenv` as a partial map. -/
def Env : Type := String → Option String

/-- `Config._get_required`: returns the variable's value, raising
`ValueError` (modelled as `Except.error`) when it is unset or empty
(Python `if not value`). -/
def getRequired (env : Env) (key : String) : Except String String :=
  match env key with
  | none => .error ("Required environment variable " ++ key ++ " is not set")
  | some v =>
    if v = "" then .error ("Required environment variable " ++ key ++ " is not set")
    else .ok v

/-! ### Python string helpers (ASCII model) -/

/-- Whitespace characters stripped by Python `str.strip()` (ASCII part). -/
def isPySpace (c : Char) : Bool :=
  c = ' ' || c = '\t' || c = '\n' || c = '\r' || c = '\x0b' || c = '\x0c'

/-- Python `str.strip()` with no arguments. -/
def pyStrip (s : String) : String :=
  String.mk (((s.toList.dropWhile isPySpace).reverse.dropWhile isPySpace).reverse)

/-- Python `str.lower()` (ASCII part: `Char.toLower` maps A–Z to a–z). -/
def pyLower (s : String) : String :=
  String.mk (s.toList.map Char.toLower)

/-- Python `str.isdigit()` (ASCII part): non-empty and all digits. -/
def pyIsDigit (s : String) : Bool :=
  !s.isEmpty && s.toList.all Char.isDigit

/-- Python `sub in s` substring test. -/
def strContains (s sub : String) : Bool :=
  decide (sub.toList <:+: s.toList)

/-- Python `s.split(sep)` for a one-character separator, on character
lists: splitting never drops or merges fields (`"a,,b"` gives three). -/
def pySplit (sep : Char) : List Char → List (List Char)
  | [] => [[]]
  | c :: rest =>
    let r := pySplit sep rest
    if c = sep then [] :: r
    else
      match r with
      | [] => [[c]]
      | g :: gs => (c :: g) :: gs

/-- Python `s.split(",")`. -/
def pySplitComma (s : String) : List String :=
  (pySplit ',' s.toList).map String.mk

/-- Python `s.startswith(pre)`. -/
def pyStartsWith (s pre : String) : Bool :=
  decide (pre.toList <+: s.toList)

/-- Python `s[1:]`. -/
def pyTail (s : String) : String :=
  String.mk (s.toList.drop 1)

/-- Digit run accepted by Python `int()`: digits with single underscores
strictly between digits (`"1_0"` ok, `"_1"`, `"1_"`, `"1__0"` not). -/
def pyIntDigits : List Char → Bool
  | [] => false
  | [c] => c.isDigit
  | c :: '_' :: rest => c.isDigit && pyIntDigits rest
  | c :: rest => c.isDigit && pyIntDigits rest

/-- Numeric value of a digit run, ignoring underscores. -/
def digitsVal (l : List Char) : Nat :=
  l.foldl (fun acc c => if c = '_' then acc else acc * 10 + (c.toNat - '0'.toNat)) 0

/-- Python `int(s)` (base 10, ASCII): strips whitespace, allows one sign,
then a `pyIntDigits` run; `none` models the `ValueError` it raises. -/
def pyIntParse (s : String) : Option Int :=
  match (pyStrip s).toList with
  | '+' :: rest => if pyIntDigits rest then some (Int.ofNat (digitsVal rest)) else none
  | '-' :: rest => if pyIntDigits rest then some (-(Int.ofNat (digitsVal rest))) else none
  | l => if pyIntDigits l then some (Int.ofNat (digitsVal l)) else none

/-! ### Phone number parsing -/

/-- The per-element validation inside `Config._parse_phone_numbers`:
`num.startswith("+")`, then `num[1:].isdigit()`. -/
def checkPhone (num : String) : Except String Unit :=
  if !(pyStartsWith num "+") then
    .error ("Phone number " ++ num ++ " must be in E.164 format (+1234567890)")
  else if !(pyIsDigit (pyTail num)) then
    .error ("Phone number " ++ num ++ " contains invalid characters")
  else .ok ()

/-- The `for num in numbers` validation loop of `_parse_phone_numbers`. -/
def checkPhones : List String → Except String Unit
  | [] => .ok ()
  | n :: rest => do
    checkPhone n
    checkPhones rest

/-- `Config._parse_phone_numbers`: split on commas, strip each entry,
validate each, return the list. -/
def parsePhoneNumbers (s : String) : Except String (List String) :=
  let numbers := (pySplitComma s).map pyStrip
  do
    checkPhones numbers
    return numbers

/-- The configuration object built by `Config.__init__`. -/
structure Config where
  twilio_account_sid : String
  twilio_auth_token : String
  allowed_phone_numbers : List String
  avigilon_url : String
  door_button_text : String
  host : String
  port : Int
deriving DecidableEq, Repr

/-- `Config.__init__` on an environment: each `_get_required`, the phone
parse, `os.getenv` defaults for HOST/PORT and `int(...)` for PORT, in the
source's order.  `Except.error` models the `ValueError`s it can raise. -/
def Config.fromEnv (env : Env) : Except String Config := do
  let sid ← getRequired env "TWILIO_ACCOUNT_SID"
  let tok ← getRequired env "TWILIO_AUTH_TOKEN"
  let numsStr ← getRequired env "ALLOWED_PHONE_NUMBERS"
  let nums ← parsePhoneNumbers numsStr
  let url ← getRequired env "AVIGILON_URL"
  let btn ← getRequired env "DOOR_BUTTON_TEXT"
  let host := (env "HOST").getD "0.0.0.0"
  let portStr := (env "PORT").getD "8000"
  let port ← match pyIntParse portStr with
    | some v => Except.ok v
    | none => Except.error ("invalid literal for int() with base 10: " ++ portStr)
  return { twilio_account_sid := sid, twilio_auth_token := tok,
           allowed_phone_numbers := nums, avigilon_url := url,
           door_button_text := btn, host := host, port := port }

/-- `Config.is_phone_allowed`: exact membership in the allowlist. -/
def Config.is_phone_allowed (c : Config) (phone : String) : Bool :=
  c.allowed_phone_numbers.contains phone

/-! ## main.py: rate limiter -/

/-- The module-level `rate_limit_data: Dict[str, list]`, as a total map
(absent keys behave as the empty list the code installs on first use). -/
def RateData : Type := String → List Int

/-- The dictionary at module load: `rate_limit_data = {}`. -/
def initialRateData : RateData := fun _ => []

/-- `check_rate_limit(phone_number)`: prune the sender's timestamps to
those strictly newer than `now - rate_limit_window_seconds`, store the
pruned list, return `False` if it already has `rate_limit_max_requests`
entries, else append `now` and return `True`.  `now` is the current time
passed explicitly. -/
def check_rate_limit (now : Int) (phone : String) (data : RateData) :
    Bool × RateData :=
  let cutoff := now - rate_limit_window_seconds
  let pruned := (data phone).filter (fun ts => decide (cutoff < ts))
  if rate_limit_max_requests ≤ pruned.length then
    (false, fun p => if p = phone then pruned else data p)
  else
    (true, fun p => if p = phone then pruned ++ [now] else data p)

/-- The state after a sequence of `check_rate_limit` calls (most recent
call first), starting from the empty dictionary. -/
def runCalls : List (Int × String) → RateData
  | [] => initialRateData
  | c :: rest => (check_rate_limit c.1 c.2 (runCalls rest)).2

/-! ## auth.py: session manager and the file system model -/

/-- A Playwright cookie (name/value/domain/path record). -/
structure Cookie where
  name : String
  value : String
  domain : String
  path : String
deriving DecidableEq, Repr

/-- Contents of a file, as seen through `json`: either the serialisation
`json.dump` produced for a cookie list, or data on which `json.load`
raises. -/
inductive FileContent where
  | jsonCookies (cookies : List Cookie)
  | malformed (text : String)
deriving DecidableEq, Repr

/-- A file: its content and its permission bits. -/
structure FileData where
  content : FileContent
  mode : Nat
deriving DecidableEq, Repr

/-- The file system: a map from paths to files. -/
def FS : Type := String → Option FileData

/-- A Playwright browser context; the code only observes its cookie jar
(`context.cookies()` / `context.add_cookies(...)`). -/
structure BrowserContext where
  cookies : List Cookie
deriving DecidableEq, Repr

/-- `context.add_cookies(cs)` adds the given cookies to the jar. -/
def BrowserContext.addCookies (ctx : BrowserContext) (cs : List Cookie) :
    BrowserContext :=
  { cookies := ctx.cookies ++ cs }

/-- `open(path, "w")` followed by a full write: creates or truncates the
file with the process's default creation mode (0644 under umask 022). -/
def fsWrite (fs : FS) (path : String) (content : FileContent) : FS :=
  fun p => if p = path then some { content := content, mode := 0o644 } else fs p

/-- `os.chmod(path, m)`. -/
def fsChmod (fs : FS) (path : String) (m : Nat) : FS :=
  fun p =>
    if p = path then (fs path).map (fun fd => { fd with mode := m }) else fs p

/-- `SessionManager.cookies_exist`: the cookies file exists. -/
def cookies_exist (fs : FS) : Bool :=
  (fs cookies_file).isSome

/-- `SessionManager.save_cookies`: `json.dump(context.cookies(), f)` into
the cookies file, then `os.chmod(..., 0o600)`. -/
def save_cookies (ctx : BrowserContext) (fs : FS) : FS :=
  fsChmod (fsWrite fs cookies_file (.jsonCookies ctx.cookies)) cookies_file 0o600

/-- `SessionManager.load_cookies`: `False` when the file is missing; else
`json.load` the file and `add_cookies` — any exception (a parse failure)
is caught and yields `False` with the context untouched. -/
def load_cookies (ctx : BrowserContext) (fs : FS) : Bool × BrowserContext :=
  if cookies_exist fs then
    match fs cookies_file with
    | some fd =>
      match fd.content with
      | .jsonCookies cs => (true, ctx.addCookies cs)
      | .malformed _ => (false, ctx)
    | none => (false, ctx)
  else (false, ctx)

/-! ## door.py -/

/-- Outcome of one external Playwright step: a value, a Playwright
`TimeoutError`, or any other exception with its message. -/
inductive StepResult (α : Type) where
  | ok (value : α)
  | timeoutErr
  | exn (msg : String)
deriving DecidableEq, Repr

/-- Oracle for one `open_door` attempt: what each external step would
yield, in the order the code performs them.  `gotoResult.ok url` carries
the URL the page landed on. -/
structure DoorEnv where
  gotoResult : StepResult String
  waitLoadResult : StepResult Unit
  buttonCount : Nat
  clickResult : StepResult Unit
  waitAfterResult : StepResult Unit
deriving DecidableEq, Repr

/-- The `DoorOpener` object's own state: its browser and context fields,
both `None` until `start` runs. -/
structure DoorOpener where
  browser : Option Unit
  context : Option BrowserContext
deriving DecidableEq, Repr

/-- The `"login" in current_url.lower() or "signin" in current_url.lower()`
test of `DoorOpener.open_door`. -/
def isLoginUrl (url : String) : Bool :=
  strContains (pyLower url) "login" || strContains (pyLower url) "signin"

/-- `DoorOpener.open_door`: one pass through navigate, redirect check,
wait for load, count button text, click, settle wait; every exception is
caught and mapped to `(False, reason)`. -/
def DoorOpener.open_door (o : DoorOpener) (env : DoorEnv) : Bool × String :=
  if o.browser.isNone || o.context.isNone then (false, "Browser not initialized")
  else
    match env.gotoResult with
    | .timeoutErr => (false, "timeout")
    | .exn m => (false, "error: " ++ m)
    | .ok url =>
      if isLoginUrl url then (false, "session_expired")
      else
        match env.waitLoadResult with
        | .timeoutErr => (false, "timeout")
        | .exn m => (false, "error: " ++ m)
        | .ok _ =>
          if env.buttonCount = 0 then (false, "button_not_found")
          else
            match env.clickResult with
            | .timeoutErr => (false, "timeout")
            | .exn m => (false, "error: " ++ m)
            | .ok _ =>
              match env.waitAfterResult with
              | .timeoutErr => (false, "timeout")
              | .exn m => (false, "error: " ++ m)
              | .ok _ => (true, "success")

/-- `DoorOpener.start`: a no-op when `self.browser` is already set;
otherwise launch the browser (counted in `launches`), create a fresh
context and load saved cookies into it when the cookies file exists. -/
def DoorOpener.start (o : DoorOpener) (fs : FS) (launches : Nat) :
    DoorOpener × Nat :=
  if o.browser.isSome then (o, launches)
  else
    let ctx : BrowserContext := { cookies := [] }
    let ctx := if cookies_exist fs then (load_cookies ctx fs).2 else ctx
    ({ browser := some (), context := some ctx }, launches + 1)

/-- The door module's state: the global `_door_opener` plus an
instrumentation counter of how many times a browser was launched. -/
structure DoorWorld where
  opener : Option DoorOpener
  launches : Nat
deriving DecidableEq, Repr

/-- The module state at import: `_door_opener = None`. -/
def initialDoorWorld : DoorWorld := { opener := none, launches := 0 }

/-- `get_door_opener`: return the global instance, creating and starting
it on first use. -/
def get_door_opener (w : DoorWorld) (fs : FS) : DoorOpener × DoorWorld :=
  match w.opener with
  | some o => (o, w)
  | none =>
    let o0 : DoorOpener := { browser := none, context := none }
    let r := DoorOpener.start o0 fs w.launches
    (r.1, { opener := some r.1, launches := r.2 })

/-- The module state after `n` calls to `get_door_opener` (same file
system each time), from the initial state. -/
def runGets (fs : FS) : Nat → DoorWorld
  | 0 => initialDoorWorld
  | n + 1 => (get_door_opener (runGets fs n) fs).2

/-- The opener returned by the `(n+1)`-st call to `get_door_opener`. -/
def getResult (fs : FS) (n : Nat) : DoorOpener :=
  (get_door_opener (runGets fs n) fs).1

/-- The dict returned by `check_status` (src/door.py). -/
structure StatusInfo where
  browser_running : Bool
  session_valid : Bool
  cookies_exist : Bool
deriving DecidableEq, Repr

/-! ## main.py: webhook handler -/

/-- `validate_twilio_request`: reads the `X-Twilio-Signature` header with
default `""` and returns `False` iff it is falsy.  The `RequestValidator`
built from `authToken` is never consulted (the `validator.validate` call
is commented out in the source), so the token cannot influence the
result. -/
def validate_twilio_request (authToken : String) (sigHeader : Option String) :
    Bool :=
  let signature := sigHeader.getD ""
  if signature = "" then false else true

/-- The handler's observable HTTP outcome: the 403 `HTTPException`, the
empty 200 for unlisted senders, or a TwiML reply carrying `message` (the
argument the code passes to `create_sms_response`). -/
inductive SmsResponse where
  | forbidden403
  | emptyOk
  | twiml (message : String)
deriving DecidableEq, Repr

/-- Result of one `receive_sms` call: the response, the rate-limiter
dictionary afterwards, and instrumentation flags recording which of
`check_rate_limit`, `open_door`, `check_status` the handler invoked. -/
structure SmsOutcome where
  response : SmsResponse
  rateData : RateData
  calledRateCheck : Bool
  calledOpenDoor : Bool
  calledCheckStatus : Bool

/-- `receive_sms`: signature check, allowlist check, rate limit, then the
three-way dispatch on `Body.strip().lower()`.  `now` is the current time,
`nowStr` its `strftime("%I:%M%p").lstrip("0")` rendering, `doorRes` the
pair `open_door()` would return and `status` the dict `check_status()`
would return. -/
def receive_sms (authToken : String) (sigHeader : Option String)
    (From Body : String) (c : Config) (data : RateData) (now : Int)
    (nowStr : String) (doorRes : Bool × String) (status : StatusInfo) :
    SmsOutcome :=
  if validate_twilio_request authToken sigHeader = false then
    { response := .forbidden403, rateData := data,
      calledRateCheck := false, calledOpenDoor := false, calledCheckStatus := false }
  else if c.is_phone_allowed From = false then
    { response := .emptyOk, rateData := data,
      calledRateCheck := false, calledOpenDoor := false, calledCheckStatus := false }
  else
    let r := check_rate_limit now From data
    if r.1 = false then
      { response := .twiml ("Rate limit exceeded. Max " ++
          toString rate_limit_max_requests ++ " requests per hour."),
        rateData := r.2,
        calledRateCheck := true, calledOpenDoor := false, calledCheckStatus := false }
    else
      let command := pyLower (pyStrip Body)
      if command = "door" then
        let message :=
          if doorRes.1 then "Door opened at " ++ nowStr
          else if doorRes.2 = "session_expired" then
            "Session expired. Re-authenticate on Pi."
          else "Failed to open door. Try again or check session."
        { response := .twiml message, rateData := r.2,
          calledRateCheck := true, calledOpenDoor := true, calledCheckStatus := false }
      else if command = "status" then
        let message :=
          if status.session_valid then "Server online. Session active."
          else if status.cookies_exist then "Server online. Session may be expired."
          else "Server online. No session found."
        { response := .twiml message, rateData := r.2,
          calledRateCheck := true, calledOpenDoor := false, calledCheckStatus := true }
      else
        { response := .twiml "Unknown command. Send 'door' to open.", rateData := r.2,
          calledRateCheck := true, calledOpenDoor := false, calledCheckStatus := false }

/-! ## Rate limiter lemmas -/

/-- One `check_rate_limit` call keeps every sender's list within the
request bound. -/
theorem check_rate_limit_length_le (now : Int) (phone : String) (data : RateData)
    (h : ∀ p, (data p).length ≤ rate_limit_max_requests) (p : String) :
    ((check_rate_limit now phone data).2 p).length ≤ rate_limit_max_requests := by
  have hf : ((data phone).filter
      (fun ts => decide (now - rate_limit_window_seconds < ts))).length ≤
      (data phone).length := List.length_filter_le _ _
  by_cases hc : rate_limit_max_requests ≤
      ((data phone).filter
        (fun ts => decide (now - rate_limit_window_seconds < ts))).length
  · by_cases hp : p = phone
    · subst hp
      simp only [check_rate_limit, if_pos hc, if_true, eq_self_iff_true]
      simpa using le_trans hf (h p)
    · simp only [check_rate_limit, if_pos hc, if_neg hp]
      exact h p
  · by_cases hp : p = phone
    · subst hp
      simp only [check_rate_limit, if_neg hc]
      simp only [eq_self_iff_true, if_true, List.length_append,
        List.length_singleton]
      omega
    · simp only [check_rate_limit, if_neg hc, if_neg hp]
      exact h p

/-- Every reachable rate-limiter state keeps every sender's list within
the request bound. -/
theorem runCalls_length_le (calls : List (Int × String)) :
    ∀ p, ((runCalls calls) p).length ≤ rate_limit_max_requests := by
  induction calls with
  | nil => intro p; simp [runCalls, initialRateData]
  | cons c rest ih =>
      intro p
      exact check_rate_limit_length_le c.1 c.2 (runCalls rest) ih p

/-- After a call, every stored timestamp of the caller is within the
window ending at the call time. -/
theorem check_rate_limit_fresh (now : Int) (phone : String) (data : RateData) :
    ((check_rate_limit now phone data).2 phone).all
      (fun ts => decide (now - rate_limit_window_seconds < ts)) = true := by
  by_cases hc : rate_limit_max_requests ≤
      ((data phone).filter
        (fun ts => decide (now - rate_limit_window_seconds < ts))).length
  · simp only [check_rate_limit, if_pos hc, eq_self_iff_true, if_true,
      List.all_eq_true]
    intro ts hts
    exact (List.mem_filter.mp hts).2
  · simp only [check_rate_limit, if_neg hc, eq_self_iff_true, if_true,
      List.all_eq_true, List.mem_append, List.mem_singleton]
    intro ts hts
    rcases hts with hts | hts
    · exact (List.mem_filter.mp hts).2
    · subst hts
      simp only [decide_eq_true_eq, rate_limit_window_seconds]
      omega

/-- `check_rate_limit` refuses exactly when the pruned history is already
at the bound. -/
theorem check_rate_limit_false_iff (now : Int) (phone : String) (data : RateData) :
    (check_rate_limit now phone data).1 = false ↔
      rate_limit_max_requests ≤
        ((data phone).filter
          (fun ts => decide (now - rate_limit_window_seconds < ts))).length := by
  by_cases hc : rate_limit_max_requests ≤
      ((data phone).filter
        (fun ts => decide (now - rate_limit_window_seconds < ts))).length
  · simp [check_rate_limit, hc]
  · simp [check_rate_limit, hc]

/-- C1: the rate limiter is a per-phone-number sliding window bounding
requests to `rate_limit_max_requests` (10) per hour: over every sequence
of `check_rate_limit` calls the stored list of any number never exceeds
10 entries; after a call, every entry stored for the caller lies within
the last `rate_limit_window_seconds` (3600 s); and the call returns
`False` exactly when the pruned list already holds at least 10 entries. -/
theorem claimC1_rate_limiter_sliding_window (calls : List (Int × String))
    (now : Int) (phone p : String) :
    ((runCalls calls) p).length ≤ rate_limit_max_requests ∧
    ((check_rate_limit now phone (runCalls calls)).2 phone).all
      (fun ts => decide (now - rate_limit_window_seconds < ts)) = true ∧
    ((check_rate_limit now phone (runCalls calls)).1 = false ↔
      rate_limit_max_requests ≤
        (((runCalls calls) phone).filter
          (fun ts => decide (now - rate_limit_window_seconds < ts))).length) :=
  ⟨runCalls_length_le calls p,
   check_rate_limit_fresh now phone (runCalls calls),
   check_rate_limit_false_iff now phone (runCalls calls)⟩

/-- C10: quota is consumed only on success.  A `True` outcome stores the
pruned history plus exactly the current time; a `False` outcome stores
the pruned history with nothing appended; lists of other numbers are
untouched either way. -/
theorem claimC10_rate_limit_frame (now : Int) (phone : String) (data : RateData)
    (q : String) :
    ((check_rate_limit now phone data).1 = true →
      (check_rate_limit now phone data).2 phone =
        ((data phone).filter
          (fun ts => decide (now - rate_limit_window_seconds < ts))) ++ [now]) ∧
    ((check_rate_limit now phone data).1 = false →
      (check_rate_limit now phone data).2 phone =
        (data phone).filter
          (fun ts => decide (now - rate_limit_window_seconds < ts))) ∧
    (q ≠ phone → (check_rate_limit now phone data).2 q = data q) := by
  by_cases hc : rate_limit_max_requests ≤
      ((data phone).filter
        (fun ts => decide (now - rate_limit_window_seconds < ts))).length
  · refine ⟨?_, ?_, ?_⟩
    · intro h
      simp [check_rate_limit, hc] at h
    · intro _
      simp [check_rate_limit, hc]
    · intro hq
      simp [check_rate_limit, hc, hq]
  · refine ⟨?_, ?_, ?_⟩
    · intro _
      simp [check_rate_limit, hc]
    · intro h
      simp [check_rate_limit, hc] at h
    · intro hq
      simp [check_rate_limit, hc, hq]

/-- Witness for C10 at concrete inputs: a first request is recorded, a
request against a full window is not, and an unrelated number's list is
untouched. -/
theorem claimC10_rate_limit_frame_witness :
    ((check_rate_limit 5 "+15550000001" initialRateData).2 "+15550000001" =
      ((initialRateData "+15550000001").filter
        (fun ts => decide (5 - rate_limit_window_seconds < ts))) ++ [5]) ∧
    ((check_rate_limit 0 "+15550000001"
        (fun _ => List.replicate 10 (0 : Int))).2 "+15550000001" =
      (List.replicate 10 (0 : Int)).filter
        (fun ts => decide (0 - rate_limit_window_seconds < ts))) ∧
    ((check_rate_limit 5 "+15550000001" initialRateData).2 "+15550000002" =
      initialRateData "+15550000002") :=
  ⟨(claimC10_rate_limit_frame 5 "+15550000001" initialRateData "+15550000002").1
      (by decide),
   (claimC10_rate_limit_frame 0 "+15550000001"
      (fun _ => List.replicate 10 (0 : Int)) "+15550000002").2.1 (by decide),
   (claimC10_rate_limit_frame 5 "+15550000001" initialRateData "+15550000002").2.2
      (by decide)⟩

/-! ## Cookie persistence -/

/-- C4: `save_cookies` serialises the context's cookies as JSON into the
configured cookies file and then sets its permissions to 0600, for every
cookie list the context returns; no other file is touched. -/
theorem claimC4_save_cookies_json_0600 (ctx : BrowserContext) (fs : FS) :
    save_cookies ctx fs cookies_file =
      some { content := .jsonCookies ctx.cookies, mode := 0o600 } ∧
    (∀ p, p ≠ cookies_file → save_cookies ctx fs p = fs p) := by
  constructor
  · simp [save_cookies, fsChmod, fsWrite]
  · intro p hp
    simp [save_cookies, fsChmod, fsWrite, hp]

/-- Witness for C4's frame part at a concrete file and file system. -/
theorem claimC4_save_cookies_json_0600_witness :
    save_cookies { cookies := [] } (fun _ => none) "other.txt" = none :=
  (claimC4_save_cookies_json_0600 { cookies := [] } (fun _ => none)).2
    "other.txt" (by decide)

/-- C5: cookie persistence round-trips — after `save_cookies` with a
context holding cookies `c`, `load_cookies` returns `True` and adds
exactly `c` to the (possibly different) context it is given; when the
cookies file does not exist, or exists but fails to parse, it returns
`False` and leaves the context unchanged. -/
theorem claimC5_cookie_roundtrip (ctx ctxLoad : BrowserContext) (fs : FS)
    (s : String) (m : Nat) :
    load_cookies ctxLoad (save_cookies ctx fs) =
      (true, ctxLoad.addCookies ctx.cookies) ∧
    (fs cookies_file = none → load_cookies ctxLoad fs = (false, ctxLoad)) ∧
    (fs cookies_file = some { content := .malformed s, mode := m } →
      load_cookies ctxLoad fs = (false, ctxLoad)) := by
  refine ⟨?_, ?_, ?_⟩
  · simp [load_cookies, cookies_exist, save_cookies, fsChmod, fsWrite]
  · intro h
    simp [load_cookies, cookies_exist, h]
  · intro h
    simp [load_cookies, cookies_exist, h]

/-- Witness for C5's failure cases: a missing cookies file and a
malformed cookies file each yield `False` with the context unchanged. -/
theorem claimC5_cookie_roundtrip_witness :
    load_cookies { cookies := [] } (fun _ => none) =
      (false, { cookies := [] }) ∧
    load_cookies { cookies := [] }
        (fun p => if p = cookies_file then
          some { content := .malformed "not json", mode := 0o600 } else none) =
      (false, { cookies := [] }) :=
  ⟨(claimC5_cookie_roundtrip { cookies := [] } { cookies := [] }
      (fun _ => none) "" 0).2.1 rfl,
   (claimC5_cookie_roundtrip { cookies := [] } { cookies := [] }
      (fun p => if p = cookies_file then
        some { content := .malformed "not json", mode := 0o600 } else none)
      "not json" 0o600).2.2 (by simp)⟩

/-! ## Twilio signature validation -/

/-- C8: the webhook rejects with HTTP 403 exactly when the
`X-Twilio-Signature` header is absent or empty; `validate_twilio_request`
accepts every non-empty header value, and its result does not depend on
the Twilio auth token (no cryptographic verification happens). -/
theorem claimC8_signature_presence_only (t1 t2 : String) (sig : Option String)
    (From Body : String) (c : Config) (data : RateData) (now : Int)
    (nowStr : String) (doorRes : Bool × String) (status : StatusInfo) :
    validate_twilio_request t1 sig = validate_twilio_request t2 sig ∧
    (validate_twilio_request t1 sig = false ↔ sig.getD "" = "") ∧
    ((receive_sms t1 sig From Body c data now nowStr doorRes
        status).response = .forbidden403 ↔ sig.getD "" = "") := by
  refine ⟨rfl, ?_, ?_⟩
  · by_cases h : sig.getD "" = "" <;> simp [validate_twilio_request, h]
  · by_cases h : sig.getD "" = ""
    · simp [receive_sms, validate_twilio_request, h]
    · simp only [receive_sms, validate_twilio_request, h, if_neg,
        Bool.false_eq_true, if_false]
      split_ifs <;> simp_all

/-! ## Webhook check order and dispatch -/

/-- C2: checks run in order allowlist, then rate limit, then dispatch —
an unlisted sender's request returns without touching the rate limiter
and without invoking `open_door` or `check_status`, and `open_door` can
only run for a sender that passed both the allowlist and the rate
limit. -/
theorem claimC2_check_order (authToken : String) (sigHeader : Option String)
    (From Body : String) (c : Config) (data : RateData) (now : Int)
    (nowStr : String) (doorRes : Bool × String) (status : StatusInfo) :
    (c.is_phone_allowed From = false →
      (receive_sms authToken sigHeader From Body c data now nowStr doorRes
          status).calledRateCheck = false ∧
      (receive_sms authToken sigHeader From Body c data now nowStr doorRes
          status).calledOpenDoor = false ∧
      (receive_sms authToken sigHeader From Body c data now nowStr doorRes
          status).calledCheckStatus = false ∧
      (receive_sms authToken sigHeader From Body c data now nowStr doorRes
          status).rateData = data) ∧
    ((receive_sms authToken sigHeader From Body c data now nowStr doorRes
        status).calledOpenDoor = true →
      c.is_phone_allowed From = true ∧
      (check_rate_limit now From data).1 = true) := by
  constructor
  · intro hallow
    by_cases hv : validate_twilio_request authToken sigHeader = false
    · simp [receive_sms, hv]
    · simp [receive_sms, hv, hallow]
  · intro hdoor
    by_cases hv : validate_twilio_request authToken sigHeader = false
    · simp [receive_sms, hv] at hdoor
    · by_cases ha : c.is_phone_allowed From = false
      · simp [receive_sms, hv, ha] at hdoor
      · have ha' : c.is_phone_allowed From = true := by
          revert ha; cases c.is_phone_allowed From <;> simp
        by_cases hr : (check_rate_limit now From data).1 = false
        · simp [receive_sms, hv, ha, hr] at hdoor
        · have hr' : (check_rate_limit now From data).1 = true := by
            revert hr; cases (check_rate_limit now From data).1 <;> simp
          exact ⟨ha', hr'⟩

/-- Witness for C2: an unlisted sender is dropped without side effects,
and a listed sender whose "door" request goes through had passed both
checks. -/
theorem claimC2_check_order_witness :
    ((receive_sms "tok" (some "sig") "+15550009999" "door"
        { twilio_account_sid := "sid", twilio_auth_token := "tok",
          allowed_phone_numbers := ["+15550000001"],
          avigilon_url := "https://example.org", door_button_text := "Open Door",
          host := "0.0.0.0", port := 8000 }
        initialRateData 0 "9:00AM" (true, "success")
        { browser_running := true, session_valid := true,
          cookies_exist := true }).calledRateCheck = false ∧
      (receive_sms "tok" (some "sig") "+15550009999" "door"
        { twilio_account_sid := "sid", twilio_auth_token := "tok",
          allowed_phone_numbers := ["+15550000001"],
          avigilon_url := "https://example.org", door_button_text := "Open Door",
          host := "0.0.0.0", port := 8000 }
        initialRateData 0 "9:00AM" (true, "success")
        { browser_running := true, session_valid := true,
          cookies_exist := true }).calledOpenDoor = false ∧
      (receive_sms "tok" (some "sig") "+15550009999" "door"
        { twilio_account_sid := "sid", twilio_auth_token := "tok",
          allowed_phone_numbers := ["+15550000001"],
          avigilon_url := "https://example.org", door_button_text := "Open Door",
          host := "0.0.0.0", port := 8000 }
        initialRateData 0 "9:00AM" (true, "success")
        { browser_running := true, session_valid := true,
          cookies_exist := true }).calledCheckStatus = false ∧
      (receive_sms "tok" (some "sig") "+15550009999" "door"
        { twilio_account_sid := "sid", twilio_auth_token := "tok",
          allowed_phone_numbers := ["+15550000001"],
          avigilon_url := "https://example.org", door_button_text := "Open Door",
          host := "0.0.0.0", port := 8000 }
        initialRateData 0 "9:00AM" (true, "success")
        { browser_running := true, session_valid := true,
          cookies_exist := true }).rateData = initialRateData) ∧
    (Config.is_phone_allowed
        { twilio_account_sid := "sid", twilio_auth_token := "tok",
          allowed_phone_numbers := ["+15550000001"],
          avigilon_url := "https://example.org", door_button_text := "Open Door",
          host := "0.0.0.0", port := 8000 } "+15550000001" = true ∧
      (check_rate_limit 0 "+15550000001" initialRateData).1 = true) :=
  ⟨(claimC2_check_order "tok" (some "sig") "+15550009999" "door"
      { twilio_account_sid := "sid", twilio_auth_token := "tok",
        allowed_phone_numbers := ["+15550000001"],
        avigilon_url := "https://example.org", door_button_text := "Open Door",
        host := "0.0.0.0", port := 8000 }
      initialRateData 0 "9:00AM" (true, "success")
      { browser_running := true, session_valid := true,
        cookies_exist := true }).1 (by decide),
   (claimC2_check_order "tok" (some "sig") "+15550000001" "door"
      { twilio_account_sid := "sid", twilio_auth_token := "tok",
        allowed_phone_numbers := ["+15550000001"],
        avigilon_url := "https://example.org", door_button_text := "Open Door",
        host := "0.0.0.0", port := 8000 }
      initialRateData 0 "9:00AM" (true, "success")
      { browser_running := true, session_valid := true,
        cookies_exist := true }).2 (by decide)⟩

/-- C3: dispatch is three-way on `Body.strip().lower()` — once the
signature, allowlist and rate-limit checks have passed, `open_door` runs
exactly when the normalised body is `"door"`, `check_status` exactly when
it is `"status"`, and anything else gets the templated unknown-command
reply with neither operation invoked. -/
theorem claimC3_three_way_dispatch (authToken : String) (sigHeader : Option String)
    (From Body : String) (c : Config) (data : RateData) (now : Int)
    (nowStr : String) (doorRes : Bool × String) (status : StatusInfo)
    (hv : validate_twilio_request authToken sigHeader = true)
    (ha : c.is_phone_allowed From = true)
    (hr : (check_rate_limit now From data).1 = true) :
    ((receive_sms authToken sigHeader From Body c data now nowStr doorRes
        status).calledOpenDoor = true ↔ pyLower (pyStrip Body) = "door") ∧
    ((receive_sms authToken sigHeader From Body c data now nowStr doorRes
        status).calledCheckStatus = true ↔ pyLower (pyStrip Body) = "status") ∧
    (pyLower (pyStrip Body) ≠ "door" → pyLower (pyStrip Body) ≠ "status" →
      (receive_sms authToken sigHeader From Body c data now nowStr doorRes
          status).response = .twiml "Unknown command. Send 'door' to open." ∧
      (receive_sms authToken sigHeader From Body c data now nowStr doorRes
          status).calledOpenDoor = false ∧
      (receive_sms authToken sigHeader From Body c data now nowStr doorRes
          status).calledCheckStatus = false) := by
  have hv' : ¬(validate_twilio_request authToken sigHeader = false) := by
    simp [hv]
  have ha' : ¬(c.is_phone_allowed From = false) := by simp [ha]
  have hr' : ¬((check_rate_limit now From data).1 = false) := by simp [hr]
  by_cases hd : pyLower (pyStrip Body) = "door"
  · simp [receive_sms, hv', ha', hr', hd]
  · by_cases hs : pyLower (pyStrip Body) = "status"
    · simp [receive_sms, hv', ha', hr', hd, hs]
    · simp [receive_sms, hv', ha', hr', hd, hs]

/-- Witness for C3 at a concrete request whose body normalises to an
unknown command. -/
theorem claimC3_three_way_dispatch_witness :
    (receive_sms "tok" (some "sig") "+15550000001" "  HeLLo  "
        { twilio_account_sid := "sid", twilio_auth_token := "tok",
          allowed_phone_numbers := ["+15550000001"],
          avigilon_url := "https://example.org", door_button_text := "Open Door",
          host := "0.0.0.0", port := 8000 }
        initialRateData 0 "9:00AM" (true, "success")
        { browser_running := true, session_valid := true,
          cookies_exist := true }).response =
      .twiml "Unknown command. Send 'door' to open." :=
  ((claimC3_three_way_dispatch "tok" (some "sig") "+15550000001" "  HeLLo  "
      { twilio_account_sid := "sid", twilio_auth_token := "tok",
        allowed_phone_numbers := ["+15550000001"],
        avigilon_url := "https://example.org", door_button_text := "Open Door",
        host := "0.0.0.0", port := 8000 }
      initialRateData 0 "9:00AM" (true, "success")
      { browser_running := true, session_valid := true,
        cookies_exist := true } (by decide) (by decide) (by decide)).2.2
    (by decide) (by decide)).1

/-! ## Door opener -/

/-- C6: `open_door` is a single pass through navigate, redirect check,
wait, find button text, click, settle wait — it returns `(True,
"success")` exactly when the browser is initialised and every step
succeeded without a login redirect, `True` never comes with any other
message, and every failure yields `(False, reason)` with one of the
source's reason strings. -/
theorem claimC6_open_door_single_attempt (o : DoorOpener) (env : DoorEnv) :
    (o.open_door env = (true, "success") ↔
      (o.browser.isSome = true ∧ o.context.isSome = true ∧
        (∃ url, env.gotoResult = .ok url ∧ isLoginUrl url = false) ∧
        env.waitLoadResult = .ok () ∧ env.buttonCount ≠ 0 ∧
        env.clickResult = .ok () ∧ env.waitAfterResult = .ok ())) ∧
    ((o.open_door env).1 = true → o.open_door env = (true, "success")) ∧
    ((o.open_door env).1 = false →
      (o.open_door env).2 = "Browser not initialized" ∨
      (o.open_door env).2 = "session_expired" ∨
      (o.open_door env).2 = "button_not_found" ∨
      (o.open_door env).2 = "timeout" ∨
      ∃ m, (o.open_door env).2 = "error: " ++ m) := by
  obtain ⟨b, ctx⟩ := o
  obtain ⟨g, w1, n, cl, w2⟩ := env
  cases b
  · simp [DoorOpener.open_door]
  · cases ctx
    · simp [DoorOpener.open_door]
    · cases g with
      | timeoutErr => simp [DoorOpener.open_door]
      | exn m => simp [DoorOpener.open_door]
      | ok url =>
        by_cases hl : isLoginUrl url
        · simp [DoorOpener.open_door, hl]
        · cases w1 with
          | timeoutErr => simp [DoorOpener.open_door, hl]
          | exn m => simp [DoorOpener.open_door, hl]
          | ok v =>
            by_cases hn : n = 0
            · simp [DoorOpener.open_door, hl, hn]
            · cases cl with
              | timeoutErr => simp [DoorOpener.open_door, hl, hn]
              | exn m => simp [DoorOpener.open_door, hl, hn]
              | ok v2 =>
                cases w2 with
                | timeoutErr => simp [DoorOpener.open_door, hl, hn]
                | exn m => simp [DoorOpener.open_door, hl, hn]
                | ok v3 => simp [DoorOpener.open_door, hl, hn]

/-- Witness for C6 at a concrete run where every step succeeds. -/
theorem claimC6_open_door_single_attempt_witness :
    DoorOpener.open_door
        { browser := some (), context := some { cookies := [] } }
        { gotoResult := .ok "https://example.org/doors",
          waitLoadResult := .ok (), buttonCount := 1,
          clickResult := .ok (), waitAfterResult := .ok () } =
      (true, "success") :=
  (claimC6_open_door_single_attempt
      { browser := some (), context := some { cookies := [] } }
      { gotoResult := .ok "https://example.org/doors",
        waitLoadResult := .ok (), buttonCount := 1,
        clickResult := .ok (), waitAfterResult := .ok () }).2.1 (by decide)

/-- `get_door_opener` always leaves the global slot filled with the
opener it returns, launching at most on the first call. -/
theorem runGets_state (fs : FS) (n : Nat) :
    (runGets fs (n + 1)).opener = some (getResult fs 0) ∧
    (runGets fs (n + 1)).launches = 1 := by
  induction n with
  | zero =>
      constructor
      · simp [runGets, getResult, initialDoorWorld, get_door_opener,
          DoorOpener.start]
      · simp [runGets, initialDoorWorld, get_door_opener, DoorOpener.start]
  | succ k ih =>
      have hstep : runGets fs (k + 2) =
          (get_door_opener (runGets fs (k + 1)) fs).2 := rfl
      rw [hstep]
      rcases ih with ⟨h1, h2⟩
      constructor
      · simp [get_door_opener, h1, h2]
      · simp [get_door_opener, h1, h2]

/-- Every call to `get_door_opener` returns the same opener as the first
call. -/
theorem getResult_const (fs : FS) (n : Nat) : getResult fs n = getResult fs 0 := by
  cases n with
  | zero => rfl
  | succ k =>
      have h := (runGets_state fs k).1
      unfold getResult
      simp only [get_door_opener, h]
      rfl

/-- C7: a single global browser instance is reused across requests — a
filled global slot is returned as-is with the world unchanged, `start`
is a no-op when the browser is already running, and over any sequence of
`get_door_opener` calls the browser is launched exactly once and every
call returns the first call's opener. -/
theorem claimC7_global_singleton (w : DoorWorld) (fs : FS) (o : DoorOpener)
    (n : Nat) :
    (w.opener = some o → get_door_opener w fs = (o, w)) ∧
    (o.browser.isSome = true → DoorOpener.start o fs w.launches = (o, w.launches)) ∧
    (runGets fs (n + 1)).launches = 1 ∧
    getResult fs n = getResult fs 0 := by
  refine ⟨?_, ?_, (runGets_state fs n).2, getResult_const fs n⟩
  · intro h
    simp [get_door_opener, h]
  · intro h
    simp [DoorOpener.start, h]

/-- Witness for C7: a filled slot is returned unchanged and `start` on a
running browser is a no-op. -/
theorem claimC7_global_singleton_witness :
    get_door_opener
        { opener := some { browser := some (), context := some { cookies := [] } },
          launches := 1 } (fun _ => none) =
      ({ browser := some (), context := some { cookies := [] } },
       { opener := some { browser := some (), context := some { cookies := [] } },
         launches := 1 }) ∧
    DoorOpener.start { browser := some (), context := some { cookies := [] } }
        (fun _ => none) 1 =
      ({ browser := some (), context := some { cookies := [] } }, 1) :=
  ⟨(claimC7_global_singleton
      { opener := some { browser := some (), context := some { cookies := [] } },
        launches := 1 } (fun _ => none)
      { browser := some (), context := some { cookies := [] } } 0).1 rfl,
   (claimC7_global_singleton
      { opener := some { browser := some (), context := some { cookies := [] } },
        launches := 1 } (fun _ => none)
      { browser := some (), context := some { cookies := [] } } 0).2.1 rfl⟩

/-! ## Config construction (C9)

The claim's failure condition, written independently of the construction
code so the characterisation is not a restatement of `Config.fromEnv`. -/

/-- The five environment variables `Config.__init__` requires. -/
def requiredKeys : List String :=
  ["TWILIO_ACCOUNT_SID", "TWILIO_AUTH_TOKEN", "ALLOWED_PHONE_NUMBERS",
   "AVIGILON_URL", "DOOR_BUTTON_TEXT"]

/-- A required variable is unset or empty. -/
def envMissing (env : Env) (k : String) : Bool :=
  match env k with
  | none => true
  | some v => v == ""

/-- An entry is a well-formed allowlist number: `"+"` followed solely by
digits. -/
def validPhone (num : String) : Bool :=
  pyStartsWith num "+" && pyIsDigit (pyTail num)

/-- Some comma-separated entry of `ALLOWED_PHONE_NUMBERS`, after
trimming, is not `"+"` followed solely by digits. -/
def allowedEntriesInvalid (env : Env) : Bool :=
  match env "ALLOWED_PHONE_NUMBERS" with
  | none => false
  | some s => ((pySplitComma s).map pyStrip).any (fun n => !(validPhone n))

/-- The failure condition exactly as claim C9 states it. -/
def c9Cond (env : Env) : Bool :=
  requiredKeys.any (envMissing env) || allowedEntriesInvalid env

/-- The amended failure condition: the claim's condition, or `PORT` set
to a value `int()` rejects. -/
def c9CondAmended (env : Env) : Bool :=
  c9Cond env || (pyIntParse ((env "PORT").getD "8000")).isNone

/-- An environment where every variable claim C9 mentions is present and
well-formed but `PORT` is not an integer literal. -/
def cenvPort : Env := fun k =>
  if k = "TWILIO_ACCOUNT_SID" then some "ACxxxx"
  else if k = "TWILIO_AUTH_TOKEN" then some "authtoken"
  else if k = "ALLOWED_PHONE_NUMBERS" then some "+15551230000"
  else if k = "AVIGILON_URL" then some "https://example.org/door"
  else if k = "DOOR_BUTTON_TEXT" then some "Open Door"
  else if k = "PORT" then some "abc"
  else none

/-- `_get_required` fails exactly on an unset or empty variable. -/
theorem getRequired_error_iff (env : Env) (k : String) :
    (∃ e, getRequired env k = .error e) ↔ envMissing env k = true := by
  unfold getRequired envMissing
  cases henv : env k with
  | none => simp
  | some v =>
      by_cases hv : v = "" <;> simp [hv]

/-- A successful `_get_required` returns the stored, non-empty value. -/
theorem getRequired_ok (env : Env) (k v : String)
    (h : getRequired env k = .ok v) : env k = some v ∧ ¬(v = "") := by
  unfold getRequired at h
  cases henv : env k <;> rw [henv] at h
  · cases h
  · rename_i w
    dsimp only at h
    by_cases hw : w = ""
    · rw [if_pos hw] at h; cases h
    · rw [if_neg hw] at h
      injection h with h
      subst h
      exact ⟨rfl, hw⟩

/-- A successfully fetched required variable is not missing. -/
theorem envMissing_false_of_ok (env : Env) (k v : String)
    (h : getRequired env k = .ok v) : envMissing env k = false := by
  obtain ⟨henv, hv⟩ := getRequired_ok env k v h
  simp [envMissing, henv, hv]

/-- The per-entry check succeeds exactly on well-formed numbers. -/
theorem checkPhone_ok_iff (num : String) :
    checkPhone num = .ok () ↔ validPhone num = true := by
  unfold checkPhone validPhone
  by_cases h1 : pyStartsWith num "+" <;>
    by_cases h2 : pyIsDigit (pyTail num) <;> simp [h1, h2]

/-- The validation loop succeeds exactly when every entry is
well-formed. -/
theorem checkPhones_ok_iff (l : List String) :
    checkPhones l = .ok () ↔ ∀ n ∈ l, validPhone n = true := by
  induction l with
  | nil => simp [checkPhones]
  | cons n rest ih =>
      cases hcp : checkPhone n with
      | error e =>
          have hn : ¬ validPhone n = true := by
            intro hv
            rw [← checkPhone_ok_iff] at hv
            rw [hcp] at hv
            cases hv
          simp [checkPhones, hcp, Bind.bind, Except.bind, hn]
      | ok u =>
          cases u
          have hn : validPhone n = true := (checkPhone_ok_iff n).mp hcp
          simp [checkPhones, hcp, Bind.bind, Except.bind, ih, hn]

/-- A missing required variable makes the amended condition hold. -/
theorem c9CondAmended_of_missing (env : Env) (k : String)
    (hk : k ∈ requiredKeys) (h : envMissing env k = true) :
    c9CondAmended env = true := by
  simp only [c9CondAmended, c9Cond, Bool.or_eq_true, List.any_eq_true]
  exact Or.inl (Or.inl ⟨k, hk, h⟩)

/-- A malformed allowlist entry makes the amended condition hold. -/
theorem c9CondAmended_of_badPhone (env : Env) (numsStr n : String)
    (henv : env "ALLOWED_PHONE_NUMBERS" = some numsStr)
    (hn : n ∈ (pySplitComma numsStr).map pyStrip)
    (hbad : validPhone n = false) : c9CondAmended env = true := by
  simp only [c9CondAmended, c9Cond, Bool.or_eq_true]
  refine Or.inl (Or.inr ?_)
  simp only [allowedEntriesInvalid, henv, List.any_eq_true]
  exact ⟨n, hn, by simp [hbad]⟩

/-- C9 counterexample: with every required variable present and
well-formed but `PORT="abc"`, `Config` construction raises `ValueError`
while the claim's "exactly when" condition does not hold, so the claim
as stated is false at this input. -/
theorem claimC9_counterexample :
    ¬((∃ e, Config.fromEnv cenvPort = .error e) ↔ c9Cond cenvPort = true) := by
  intro h
  have h2 : c9Cond cenvPort = true :=
    h.mp ⟨"invalid literal for int() with base 10: abc", rfl⟩
  have h3 : c9Cond cenvPort = false := by decide
  rw [h3] at h2
  cases h2

/-- C9 (amended): `Config` construction raises `ValueError` exactly when
a required variable is unset or empty, some trimmed allowlist entry is
not `"+"` followed solely by digits, or the effective `PORT` string is
not an `int()` literal; every number of a successfully built allowlist is
`"+"` followed solely by digits, and `is_phone_allowed` is exact string
membership in that list. -/
theorem claimC9_amended_config_validation (env : Env) :
    ((∃ e, Config.fromEnv env = .error e) ↔ c9CondAmended env = true) ∧
    (∀ cfg, Config.fromEnv env = .ok cfg →
      (∀ n ∈ cfg.allowed_phone_numbers,
        pyStartsWith n "+" = true ∧ pyIsDigit (pyTail n) = true) ∧
      (∀ p, cfg.is_phone_allowed p = true ↔ p ∈ cfg.allowed_phone_numbers)) := by
  cases h1 : getRequired env "TWILIO_ACCOUNT_SID" with
  | error e =>
      have heq : Config.fromEnv env = .error e := by
        simp [Config.fromEnv, h1, Bind.bind, Except.bind]
      refine ⟨iff_of_true ⟨e, heq⟩
        (c9CondAmended_of_missing env _ (by decide)
          ((getRequired_error_iff env _).mp ⟨e, h1⟩)), ?_⟩
      intro cfg hcfg
      rw [heq] at hcfg
      cases hcfg
  | ok sid =>
  cases h2 : getRequired env "TWILIO_AUTH_TOKEN" with
  | error e =>
      have heq : Config.fromEnv env = .error e := by
        simp [Config.fromEnv, h1, h2, Bind.bind, Except.bind]
      refine ⟨iff_of_true ⟨e, heq⟩
        (c9CondAmended_of_missing env _ (by decide)
          ((getRequired_error_iff env _).mp ⟨e, h2⟩)), ?_⟩
      intro cfg hcfg
      rw [heq] at hcfg
      cases hcfg
  | ok tok =>
  cases h3 : getRequired env "ALLOWED_PHONE_NUMBERS" with
  | error e =>
      have heq : Config.fromEnv env = .error e := by
        simp [Config.fromEnv, h1, h2, h3, Bind.bind, Except.bind]
      refine ⟨iff_of_true ⟨e, heq⟩
        (c9CondAmended_of_missing env _ (by decide)
          ((getRequired_error_iff env _).mp ⟨e, h3⟩)), ?_⟩
      intro cfg hcfg
      rw [heq] at hcfg
      cases hcfg
  | ok numsStr =>
  cases hcp : checkPhones ((pySplitComma numsStr).map pyStrip) with
  | error e =>
      have heq : Config.fromEnv env = .error e := by
        simp [Config.fromEnv, h1, h2, h3, parsePhoneNumbers, hcp,
          Bind.bind, Except.bind]
      have hbad : ∃ n ∈ (pySplitComma numsStr).map pyStrip,
          validPhone n = false := by
        by_contra hall
        push_neg at hall
        have hok : checkPhones ((pySplitComma numsStr).map pyStrip) = .ok () :=
          (checkPhones_ok_iff _).mpr (fun n hn => by
            cases hb : validPhone n
            · exact absurd hb (hall n hn)
            · rfl)
        rw [hcp] at hok
        cases hok
      obtain ⟨n, hn, hv⟩ := hbad
      obtain ⟨henv3, _⟩ := getRequired_ok env _ _ h3
      refine ⟨iff_of_true ⟨e, heq⟩
        (c9CondAmended_of_badPhone env numsStr n henv3 hn hv), ?_⟩
      intro cfg hcfg
      rw [heq] at hcfg
      cases hcfg
  | ok u =>
  cases u
  cases h4 : getRequired env "AVIGILON_URL" with
  | error e =>
      have heq : Config.fromEnv env = .error e := by
        simp [Config.fromEnv, h1, h2, h3, parsePhoneNumbers, hcp, h4,
          Bind.bind, Except.bind, Pure.pure, Except.pure]
      refine ⟨iff_of_true ⟨e, heq⟩
        (c9CondAmended_of_missing env _ (by decide)
          ((getRequired_error_iff env _).mp ⟨e, h4⟩)), ?_⟩
      intro cfg hcfg
      rw [heq] at hcfg
      cases hcfg
  | ok url =>
  cases h5 : getRequired env "DOOR_BUTTON_TEXT" with
  | error e =>
      have heq : Config.fromEnv env = .error e := by
        simp [Config.fromEnv, h1, h2, h3, parsePhoneNumbers, hcp, h4, h5,
          Bind.bind, Except.bind, Pure.pure, Except.pure]
      refine ⟨iff_of_true ⟨e, heq⟩
        (c9CondAmended_of_missing env _ (by decide)
          ((getRequired_error_iff env _).mp ⟨e, h5⟩)), ?_⟩
      intro cfg hcfg
      rw [heq] at hcfg
      cases hcfg
  | ok btn =>
  cases hport : pyIntParse ((env "PORT").getD "8000") with
  | none =>
      have heq : Config.fromEnv env =
          .error ("invalid literal for int() with base 10: " ++
            ((env "PORT").getD "8000")) := by
        simp [Config.fromEnv, h1, h2, h3, parsePhoneNumbers, hcp, h4, h5,
          hport, Bind.bind, Except.bind, Pure.pure, Except.pure]
      refine ⟨iff_of_true ⟨_, heq⟩ (by simp [c9CondAmended, hport]), ?_⟩
      intro cfg hcfg
      rw [heq] at hcfg
      cases hcfg
  | some v =>
      have heq : Config.fromEnv env = .ok
          { twilio_account_sid := sid, twilio_auth_token := tok,
            allowed_phone_numbers := (pySplitComma numsStr).map pyStrip,
            avigilon_url := url, door_button_text := btn,
            host := (env "HOST").getD "0.0.0.0", port := v } := by
        simp [Config.fromEnv, h1, h2, h3, parsePhoneNumbers, hcp, h4, h5,
          hport, Bind.bind, Except.bind, Pure.pure, Except.pure]
      have e1 := envMissing_false_of_ok env _ _ h1
      have e2 := envMissing_false_of_ok env _ _ h2
      have e3 := envMissing_false_of_ok env _ _ h3
      have e4 := envMissing_false_of_ok env _ _ h4
      have e5 := envMissing_false_of_ok env _ _ h5
      have hkeys : requiredKeys.any (envMissing env) = false := by
        rw [List.any_eq_false]
        intro k hk
        simp only [requiredKeys, List.mem_cons, List.not_mem_nil,
          or_false] at hk
        rcases hk with rfl | rfl | rfl | rfl | rfl
        · simp [e1]
        · simp [e2]
        · simp [e3]
        · simp [e4]
        · simp [e5]
      have hinv : allowedEntriesInvalid env = false := by
        obtain ⟨henv3, _⟩ := getRequired_ok env _ _ h3
        simp only [allowedEntriesInvalid, henv3]
        rw [List.any_eq_false]
        intro n hn
        have hv := (checkPhones_ok_iff _).mp hcp n hn
        simp [hv]
      have hcondF : c9CondAmended env = false := by
        simp [c9CondAmended, c9Cond, hkeys, hinv, hport]
      constructor
      · refine iff_of_false ?_ (by simp [hcondF])
        rintro ⟨e, he⟩
        rw [heq] at he
        cases he
      · intro cfg hcfg
        rw [heq] at hcfg
        injection hcfg with hcfg
        subst hcfg
        constructor
        · intro n hn
          have hv := (checkPhones_ok_iff _).mp hcp n hn
          simpa [validPhone, Bool.and_eq_true] using hv
        · intro p
          simp only [Config.is_phone_allowed]
          exact List.elem_iff

/-- An environment where every variable claim C9 mentions is present and
well-formed and `PORT` is unset. -/
def cenvGood : Env := fun k =>
  if k = "TWILIO_ACCOUNT_SID" then some "ACxxxx"
  else if k = "TWILIO_AUTH_TOKEN" then some "authtoken"
  else if k = "ALLOWED_PHONE_NUMBERS" then some "+15551230000"
  else if k = "AVIGILON_URL" then some "https://example.org/door"
  else if k = "DOOR_BUTTON_TEXT" then some "Open Door"
  else none

/-- The configuration `Config.fromEnv` builds from `cenvGood`. -/
def cfgGood : Config :=
  { twilio_account_sid := "ACxxxx", twilio_auth_token := "authtoken",
    allowed_phone_numbers := ["+15551230000"],
    avigilon_url := "https://example.org/door",
    door_button_text := "Open Door", host := "0.0.0.0", port := 8000 }

/-- Witness for C9 (amended) at a concrete well-formed environment. -/
theorem claimC9_amended_config_validation_witness :
    (pyStartsWith "+15551230000" "+" = true ∧
      pyIsDigit (pyTail "+15551230000") = true) ∧
    (cfgGood.is_phone_allowed "+15551230000" = true ↔
      "+15551230000" ∈ cfgGood.allowed_phone_numbers) :=
  ⟨((claimC9_amended_config_validation cenvGood).2 cfgGood (by rfl)).1
      "+15551230000" (by decide),
   ((claimC9_amended_config_validation cenvGood).2 cfgGood (by rfl)).2
      "+15551230000"⟩

end PiHome
